import Mathlib

/-!
Verification of the `db_manager` ingestion pipeline.

This file gives a shallow embedding of the repository's code:

* `src/data_models/model.py`    — `DataModel.time_column`
* `src/database/db_writer.py`   — `filter_dataframe`, `DataFrameChunkWriter`
                                  (`process_file`, `write_to_db`,
                                  `_prepare_chunk_for_db`, `format_time_column`),
                                  `DataExtractor` (`get_csv_files`, `run`),
                                  `sort_table_on_time`
* `src/database/db_connector.py` — `DBConnector.execute_query`
* `src/database/db_creator.py`  — `DBCreator` (validation and `create_table`)

Modelling conventions:

* Timestamps are rationals (minutes).  A dataframe cell holds either a value
  that parses as a timestamp (`some t`) or a value that does not (`none`,
  pandas `NaT`); `pd.to_datetime(..., errors=coerce)` is the identity on this
  representation, and `pd.to_datetime` without `coerce` fails on `none`.
* A dataframe row is an association list from column name to cell; a dataframe
  carries its column list and its rows.  In-place pandas mutation
  (`df[c] = ...`) is modelled by state passing: a function that mutates an
  argument returns the mutated value.
* The sqlite storage engine is an external collaborator; it is modelled as a
  function `Engine` from database state and SQL text to an optional new state
  (`none` = the statement raised `sqlite3.Error`).  One concrete engine,
  `sqliteEngine`, models the Python DB-API behaviour for exactly the statement
  shapes this repository issues, including the rule that a statement
  containing a `?` parameter marker executed with no supplied parameters
  raises (`sqlite3.ProgrammingError`, a subclass of `sqlite3.Error`).
* The multiprocessing queue is drained by the single writer; the coordinator
  joins every producer before enqueuing the sentinel, so the sequence of items
  the writer pops is the (arbitrarily interleaved) producer items followed by
  the single sentinel.  The writer is therefore modelled as a function on that
  popped sequence, and `DataExtractor.run` as its step trace.
-/

/-- A dataframe cell: `some t` iff the stored value parses as a timestamp. -/
abbrev Cell := Option ℚ

/-- A dataframe row: association list from column name to cell. -/
abbrev Row := List (String × Cell)

/-- Read a cell of a row (first binding wins, as in a pandas row). -/
def getCell : Row → String → Cell
  | [], _ => none
  | (k, v) :: rest, c => if k = c then v else getCell rest c

/-- Write a cell of a row (replace the first binding, else append). -/
def setCell : Row → String → Cell → Row
  | [], c, v => [(c, v)]
  | (k, w) :: rest, c, v =>
      if k = c then (c, v) :: rest else (k, w) :: setCell rest c v

/-- Remove a column from a row. -/
def dropCell : Row → String → Row
  | [], _ => []
  | (k, v) :: rest, c =>
      if k = c then dropCell rest c else (k, v) :: dropCell rest c

/-- A pandas dataframe: column list plus rows. -/
structure DataFrame where
  cols : List String
  rows : List Row
deriving DecidableEq, Repr

/-- `df[c] = f(row)` for every row: column assignment, in place in pandas. -/
def setColumn (df : DataFrame) (c : String) (f : Row → Cell) : DataFrame :=
  { cols := if c ∈ df.cols then df.cols else df.cols ++ [c],
    rows := df.rows.map (fun r => setCell r c (f r)) }

/-- `df.drop(columns=[c])`. -/
def dropColumn (df : DataFrame) (c : String) : DataFrame :=
  { cols := df.cols.filter (fun k => k ≠ c),
    rows := df.rows.map (fun r => dropCell r c) }

namespace DataModel

/-- `DataModel.time_column` from `src/data_models/model.py`. -/
def time_column : String := "Gmt time"

end DataModel

/-- `s.endswith(sfx)` (structural, on the character list). -/
def strEndsWith (s sfx : String) : Bool := sfx.data.isSuffixOf s.data

/-- `s.startswith(pre)` (structural, on the character list). -/
def strStartsWith (s pre : String) : Bool := pre.data.isPrefixOf s.data

/-- Drop the first `n` characters of a string. -/
def strDrop (s : String) (n : Nat) : String := String.mk (s.data.drop n)

/-- The longest prefix of characters satisfying `p`. -/
def strTakeWhile (s : String) (p : Char → Bool) : String :=
  String.mk (s.data.takeWhile p)

/-- Does some character of the string satisfy `p`? -/
def strAny (s : String) (p : Char → Bool) : Bool := s.data.any p

/-- The length of a string in characters. -/
def strLength (s : String) : Nat := s.data.length

/-- `s.replace(a, b)` for a single-character pattern. -/
def strReplaceChar (s : String) (a b : Char) : String :=
  String.mk (s.data.map (fun c => if c = a then b else c))

/-- `s.upper()` (structural, on the character list). -/
def strToUpper (s : String) : String := String.mk (s.data.map Char.toUpper)

/-- The timestamp of a row in column `c`, defaulting to `0`; only applied to
rows whose cell in `c` is known to be `some`. -/
def rowTimeVal (c : String) (r : Row) : ℚ := (getCell r c).getD 0

/-- Comparison of rows by the timestamp in column `c` (`sort_values(c)`). -/
def rowLe (c : String) (a b : Row) : Prop := rowTimeVal c a ≤ rowTimeVal c b

instance (c : String) : DecidableRel (rowLe c) := fun a b =>
  inferInstanceAs (Decidable (rowTimeVal c a ≤ rowTimeVal c b))

instance (c : String) : IsTotal Row (rowLe c) :=
  ⟨fun a b => le_total (rowTimeVal c a) (rowTimeVal c b)⟩

instance (c : String) : IsTrans Row (rowLe c) :=
  ⟨fun _ _ _ hab hbc => le_trans hab hbc⟩

/-- `l.sort_values(c)`: stable sort of rows ascending by column `c`. -/
def sortRowsOn (c : String) (l : List Row) : List Row :=
  List.insertionSort (rowLe c) l

/-- `pd.merge_asof(..., direction=backward)` key search: over right rows
(sorted ascending by `start_time`), the last row whose `start_time` key is
`≤ t`. -/
def asofMatch (l : List Row) (t : ℚ) : Option Row :=
  l.foldl (fun acc r => if rowTimeVal "start_time" r ≤ t then some r else acc)
    none

/-- Line 23 of `db_writer.py`:
`reference_df[tc] = pd.to_datetime(reference_df[tc])` (in place). -/
def parseRefStage (ref : DataFrame) : DataFrame :=
  setColumn ref DataModel.time_column
    (fun r => getCell r DataModel.time_column)

/-- Lines 42-43 of `db_writer.py`: write the window bounds into the reference
dataframe, `minutes = 1` being hardcoded at line 27 (the `time_window`
argument is not consulted):
`reference_df[start_time] = reference_df[tc] - Timedelta(minutes=1)`,
`reference_df[end_time]   = reference_df[tc] + Timedelta(minutes=1)`. -/
def addWindowCols (ref1 : DataFrame) : DataFrame :=
  setColumn
    (setColumn ref1 "start_time"
      (fun r => (getCell r DataModel.time_column).map (fun t => t - 1)))
    "end_time"
    (fun r => (getCell r DataModel.time_column).map (fun t => t + 1))

/-- `reference_df[[start_time, end_time]]`: projection of the reference to the
two window-bound columns (line 47). -/
def projWindows (ref3 : DataFrame) : List Row :=
  ref3.rows.map (fun r =>
    [("start_time", getCell r "start_time"), ("end_time", getCell r "end_time")])

/-- Line 39: `target_df[tc] = pd.to_datetime(target_df[tc], format=...,
errors=coerce)`; coercion is the identity on parsed cells and leaves
unparseable cells as `none` (`NaT`). -/
def parseTargetStage (target : DataFrame) : DataFrame :=
  setColumn target DataModel.time_column
    (fun r => getCell r DataModel.time_column)

/-- Line 40: `target_df.dropna(subset=[tc])`. -/
def dropnaStage (df : DataFrame) : DataFrame :=
  { cols := df.cols,
    rows := df.rows.filter
      (fun r => (getCell r DataModel.time_column).isSome) }

/-- One merged row of `pd.merge_asof` (lines 45-50): the target row gains the
`start_time`/`end_time` cells of its backward as-of match (`none` = `NaN` when
no right row has key `≤` the row's timestamp). -/
def mergeAsofRow (sortedR : List Row) (r : Row) : Row :=
  match asofMatch sortedR (rowTimeVal DataModel.time_column r) with
  | some w =>
      setCell (setCell r "start_time" (getCell w "start_time")) "end_time"
        (getCell w "end_time")
  | none => setCell (setCell r "start_time" none) "end_time" none

/-- Lines 52-53: the boolean mask
`(merged[tc] >= merged[start_time]) & (merged[tc] <= merged[end_time])`;
comparisons against `NaN`/`NaT` are false. -/
def windowPred (r : Row) : Bool :=
  match getCell r DataModel.time_column, getCell r "start_time",
      getCell r "end_time" with
  | some t, some s, some e => decide (s ≤ t ∧ t ≤ e)
  | _, _, _ => false

/-- Extend a column list by a fresh column name. -/
def addColName (cs : List String) (c : String) : List String :=
  if c ∈ cs then cs else cs ++ [c]

/-- Lines 39-55 of `db_writer.py`: the main alignment path of
`filter_dataframe` once the `Gmt time` branch is taken.  Returns the mutated
reference dataframe together with the filtered result. -/
def mainAlign (ref1 target : DataFrame) : DataFrame × DataFrame :=
  let ref3 := addWindowCols ref1
  let t2 := dropnaStage (parseTargetStage target)
  let sortedT := sortRowsOn DataModel.time_column t2.rows
  let sortedR := sortRowsOn "start_time" (projWindows ref3)
  let merged := sortedT.map (mergeAsofRow sortedR)
  let filtered := merged.filter windowPred
  let mergedCols := addColName (addColName t2.cols "start_time") "end_time"
  let res :=
    dropColumn (dropColumn (DataFrame.mk mergedCols filtered) "start_time")
      "end_time"
  (ref3, res)

/-- `filter_dataframe` (`db_writer.py`, lines 12-55).  The reference argument
is an `Option` because `DataExtractor` passes `None` when no reference path is
given; line 23 then subscripts `None` and raises `TypeError`.  Line 23 also
requires the reference to carry the time column (else `KeyError`) and to parse
(`pd.to_datetime` without `errors=coerce` raises on unparseable values).  The
second branch (line 30) repeats the first branch's condition and is dead code,
replicated here as in the source.  The `time_window` parameter is accepted but
never used by the source (line 27 hardcodes `minutes = 1`). -/
def filter_dataframe (reference_df : Option DataFrame) (target_df : DataFrame)
    (time_window : ℚ) : Except String (DataFrame × DataFrame) :=
  match reference_df with
  | none =>
      Except.error "TypeError: argument of type NoneType is not subscriptable"
  | some ref =>
      if DataModel.time_column ∈ ref.cols then
        if ref.rows.all (fun r => (getCell r DataModel.time_column).isSome) then
          let ref1 := parseRefStage ref
          if DataModel.time_column ∈ target_df.cols then
            Except.ok (mainAlign ref1 target_df)
          else if DataModel.time_column ∈ target_df.cols then
            Except.ok (ref1, target_df)
          else if "RELEASE_TIME" ∈ target_df.cols then
            Except.ok (ref1, target_df)
          else
            Except.error
              "Neither \x27DataModel.time_column\x27 nor \x27DataModel.time_column\x27 and \x27RELEASE_TIME\x27 column found in the DataFrame"
        else Except.error "ParseError: reference time column not parseable"
      else Except.error "KeyError: reference has no Gmt time column"

/-- The parsed timestamps of a dataframe's time column (rows whose time cell
parses). -/
def dfTimes (df : DataFrame) : List ℚ :=
  df.rows.filterMap (fun r => getCell r DataModel.time_column)

/-- Observable of a `filter_dataframe` call: the result's parsed timestamps
(empty on error). -/
def resTimesOf (x : Except String (DataFrame × DataFrame)) : List ℚ :=
  match x with
  | Except.ok (_, res) => dfTimes res
  | Except.error _ => []

/-- Observable of a `filter_dataframe` call: the columns of the reference
dataframe after the call (empty on error). -/
def refColsOf (x : Except String (DataFrame × DataFrame)) : List String :=
  match x with
  | Except.ok (r, _) => r.cols
  | Except.error _ => []

/-- `Except.isOk`. -/
def isOkE {α : Type} (x : Except String α) : Bool :=
  match x with
  | Except.ok _ => true
  | Except.error _ => false

/-- `DataFrameChunkWriter.process_file` body for one file's chunk sequence
(lines 82-89): each chunk is filtered against the (shared, mutated-in-place)
reference and the pair `(filtered_chunk, table)` is enqueued; the reference
state is threaded because `filter_dataframe` mutates it.  An exception other
than `FileNotFoundError` propagates out of the `for` loop. -/
def process_chunks (reference : Option DataFrame) (table : String) :
    List DataFrame → Except String (List (DataFrame × String))
  | [] => Except.ok []
  | c :: cs =>
      match filter_dataframe reference c 1 with
      | Except.error e => Except.error e
      | Except.ok (ref2, fc) =>
          match process_chunks (some ref2) table cs with
          | Except.error e => Except.error e
          | Except.ok rest => Except.ok ((fc, table) :: rest)

/-- `DataFrameChunkWriter.process_file` (lines 75-89).  `fileChunks = none`
means the file does not exist (`pd.read_csv` raises `FileNotFoundError`,
caught at line 88 and reported).  Returns the queue items put and the lines
printed. -/
def process_file (reference : Option DataFrame) (table : String)
    (fileChunks : Option (List DataFrame)) :
    Except String (List (DataFrame × String)) × List String :=
  match fileChunks with
  | none => (Except.ok [], ["File for " ++ table ++ " Table was not found."])
  | some cs => (process_chunks reference table cs, [])

/-- `format_time_column` (lines 130-143): reformat a time column in place;
identity on the parsed-cell representation. -/
def format_time_column (df : DataFrame) (c : String) : DataFrame :=
  if c ∈ df.cols then setColumn df c (fun r => getCell r c) else df

/-- `_prepare_chunk_for_db` (lines 113-128), with its dead second branch
(line 124 repeats line 121's condition).  `set_index` moves the column into
the frame's index and `to_sql(..., index=True)` writes it back; the row
content is unchanged, so the index bookkeeping is not represented. -/
def prepare_chunk_for_db (chunk : DataFrame) : DataFrame :=
  if DataModel.time_column ∈ chunk.cols then
    format_time_column chunk DataModel.time_column
  else if DataModel.time_column ∈ chunk.cols then
    format_time_column chunk DataModel.time_column
  else if "RELEASE_TIME" ∈ chunk.cols then
    format_time_column chunk "RELEASE_TIME"
  else chunk

/-- Outcome of one `chunk.to_sql(...)` attempt: success, or
`sqlite3.OperationalError` (transient store contention). -/
inductive WriteOutcome where
  | ok
  | opError
deriving DecidableEq, Repr

/-- The retry loop of `write_to_db` (lines 101-109), `retry_count = 5`:
attempt `to_sql`; on `OperationalError` decrement the budget, `time.sleep(1)`,
and try again.  `oracle j` is the outcome of the `j`-th attempt for this
chunk.  Returns `(written, attemptsUsed, sleepsTaken)`. -/
def retryLoop (oracle : Nat → WriteOutcome) : Nat → Nat → Bool × Nat × Nat
  | 0, _ => (false, 0, 0)
  | n + 1, i =>
      match oracle i with
      | WriteOutcome.ok => (true, 1, 0)
      | WriteOutcome.opError =>
          let r := retryLoop oracle n (i + 1)
          (r.1, r.2.1 + 1, r.2.2 + 1)

/-- One queue item: `(chunk, table_name)`; the sentinel is `(None, None)`. -/
abbrev Item := Option DataFrame × Option String

/-- The observable outcome of one `write_to_db` run. -/
structure WriterRun where
  /-- chunks appended to the store, in pop order -/
  written : List (DataFrame × String)
  /-- chunks dropped after the retry budget was exhausted -/
  droppedChunks : Nat
  /-- total `time.sleep(1)` calls -/
  sleeps : Nat
  /-- number of real (non-sentinel) items popped -/
  popped : Nat
  /-- everything `write_to_db` logs or prints (the source logs nothing) -/
  logs : List String
  /-- the loop popped the sentinel and returned normally -/
  sentinelSeen : Bool
  /-- queue items never popped -/
  leftover : List Item
deriving DecidableEq, Repr

/-- `DataFrameChunkWriter.write_to_db` (lines 91-111) as a function of the
sequence of queue items it pops: loop, pop an item, break on a `None` chunk,
otherwise run the bounded retry loop and continue whether or not the append
succeeded.  `oracle idx j` is the outcome of attempt `j` for the `idx`-th
popped chunk. -/
def write_to_db (oracle : Nat → Nat → WriteOutcome) :
    Nat → List Item → WriterRun
  | _, [] =>
      { written := [], droppedChunks := 0, sleeps := 0, popped := 0,
        logs := [], sentinelSeen := false, leftover := [] }
  | _, (none, _) :: rest =>
      { written := [], droppedChunks := 0, sleeps := 0, popped := 0,
        logs := [], sentinelSeen := true, leftover := rest }
  | idx, (some chunk, tname) :: rest =>
      let a := retryLoop (oracle idx) 5 0
      let r := write_to_db oracle (idx + 1) rest
      { written :=
          (if a.1 then [(prepare_chunk_for_db chunk, tname.getD "None")]
           else []) ++ r.written,
        droppedChunks := (if a.1 then 0 else 1) + r.droppedChunks,
        sleeps := a.2.2 + r.sleeps,
        popped := r.popped + 1,
        logs := r.logs,
        sentinelSeen := r.sentinelSeen,
        leftover := r.leftover }

/-- One step of `DataExtractor.run` (lines 190-210). -/
inductive RunStep where
  | createTables
  | startWriter
  | startProducer (i : Nat)
  | joinProducer (i : Nat)
  | putSentinel
  | joinWriter
deriving DecidableEq, Repr

/-- The statement-by-statement trace the body of `DataExtractor.run`
(lines 195-210) is written to perform over `n` input files: create the
tables, start the writer, start one producer per file, join every producer,
put the single `(None, None)` sentinel, join the writer.  This is the trace
`run` would execute if its first statement succeeded; `DataExtractor_run`
below gives the actual behaviour. -/
def run_trace (n : Nat) : List RunStep :=
  [RunStep.createTables, RunStep.startWriter]
    ++ (List.range n).map RunStep.startProducer
    ++ (List.range n).map RunStep.joinProducer
    ++ [RunStep.putSentinel, RunStep.joinWriter]

/-- A directory entry as seen by `os.listdir` plus `os.path.isfile`. -/
structure DirEntry where
  name : String
  isRegularFile : Bool
deriving DecidableEq, Repr

/-- `os.path.join` for a POSIX directory and a plain file name. -/
def os_path_join (d f : String) : String := d ++ "/" ++ f

/-- `d[k] = v` on a Python dict modelled as an association list. -/
def dictSet : List (String × String) → String → String →
    List (String × String)
  | [], k, v => [(k, v)]
  | (k1, v1) :: rest, k, v =>
      if k1 = k then (k, v) :: rest else (k1, v1) :: dictSet rest k v

/-- `base.update(upd)` on Python dicts: existing keys are overwritten. -/
def dict_update (base upd : List (String × String)) :
    List (String × String) :=
  upd.foldl (fun acc kv => dictSet acc kv.1 kv.2) base

/-- `d.get(k)` / `d[k]` on a Python dict. -/
def dictGet : List (String × String) → String → Option String
  | [], _ => none
  | (k1, v1) :: rest, k => if k1 = k then some v1 else dictGet rest k

/-- The `.csv` regular files of a directory listing (lines 179-184). -/
def scanned_names (listing : List DirEntry) : List String :=
  (listing.filter (fun e => e.isRegularFile && strEndsWith e.name ".csv")).map
    DirEntry.name

/-- The joined paths of the scanned files (line 186 keys). -/
def scanned_paths (directory : String) (listing : List DirEntry) :
    List String :=
  (scanned_names listing).map (fun f => os_path_join directory f)

/-- `DataExtractor.get_csv_files` (lines 171-188): copy the static mapping,
scan the directory for regular `.csv` files, map each scanned path to the
`data_table` default, and `dict.update` the copy with the scanned mapping. -/
def get_csv_files (data_paths : List (String × String)) (directory : String)
    (listing : List DirEntry) : List (String × String) :=
  let dynamic_tables :=
    (scanned_names listing).map (fun f => (os_path_join directory f, "data_table"))
  dict_update data_paths dynamic_tables

/-- `re.match(VALID_COLUMN_NAME, s)` for the pattern
`^[a-zA-Z_][a-zA-Z0-9_]*$` with Python semantics: `$` also matches just
before one newline at the very end of the string. -/
def matchValidName (s : String) : Bool :=
  match s.data with
  | [] => false
  | c :: rest =>
      (c.isAlpha || c = '_') &&
        (rest.all (fun ch => ch.isAlphanum || ch = '_') ||
          (match rest.getLast? with
           | some last => last = '\n' &&
               rest.dropLast.all (fun ch => ch.isAlphanum || ch = '_')
           | none => false))

/-- The allowed column types of `DBCreator._validate_columns` (line 332). -/
def valid_types : List String := ["TEXT", "TIMESTAMP", "REAL", "INTEGER"]

/-- `DBCreator._validate_table_name` (lines 302-317). -/
def validate_table_name (table_name : String) : Except String String :=
  if matchValidName table_name then Except.ok table_name
  else Except.error ("Invalid table name: " ++ table_name)

/-- The first validation failure of `DBCreator._validate_columns`
(lines 319-340): names must match the pattern, and the upper-cased type must
be one of the allowed types (`col_type.upper() in valid_types`); the first
violation in iteration order raises. -/
def columnsError : List (String × String) → Option String
  | [] => none
  | (n, ty) :: rest =>
      if matchValidName n then
        if strToUpper ty ∈ valid_types then columnsError rest
        else some ("Invalid column type for " ++ n ++ ": " ++ ty)
      else some ("Invalid column name: " ++ n)

/-- A validated `DBCreator`. -/
structure DBCreator where
  db_name : String
  table_name : String
  columns : List (String × String)
deriving DecidableEq, Repr

/-- `DBCreator.__init__` (lines 289-300): validation of the table name and of
every column runs in the constructor, before any database connection is
opened; a violation raises `ValueError` carrying the offending identifier. -/
def DBCreator_init (db_name table_name : String)
    (columns : List (String × String)) : Except String DBCreator :=
  match validate_table_name table_name with
  | Except.error e => Except.error e
  | Except.ok t =>
      match columnsError columns with
      | some e => Except.error e
      | none => Except.ok ⟨db_name ++ ".db", t, columns⟩

/-- The call `DBCreator(self.name)` at `db_writer.py:195`:
`DBCreator.__init__` (`db_creator.py`, line 289) takes
`(db_name, table_name, columns)`, so the one-argument call raises
`TypeError` in Python's calling machinery before the constructor body (and
hence any validation or store statement) runs. -/
def DBCreator_call_missing_args : Except String DBCreator :=
  Except.error
    "TypeError: DBCreator.__init__() missing 2 required positional arguments: \x27table_name\x27 and \x27columns\x27"

/-- `DataExtractor.run` (lines 190-210) as actually executed: its first
statement is `DBCreator(self.name).create_table()`, whose constructor call
raises, so the exception propagates out of `run` and none of the steps of
`run_trace` — starting the writer, spawning producers, joining them,
enqueuing the sentinel, joining the writer — ever happens. -/
def DataExtractor_run (n : Nat) : Except String (List RunStep) :=
  match DBCreator_call_missing_args with
  | Except.error e => Except.error e
  | Except.ok _ => Except.ok (run_trace n)

/-- The database state of the storage collaborator: named tables with rows. -/
abbrev DBState := List (String × List Row)

/-- The names of the tables of a database state. -/
def tableNames (db : DBState) : List String := db.map Prod.fst

/-- The storage collaborator: executes one SQL statement against a state;
`none` means the statement raised `sqlite3.Error`. -/
abbrev Engine := DBState → String → Option DBState

/-- The text up to the terminating semicolon. -/
def stripSemi (s : String) : String := strTakeWhile s (fun c => c ≠ ';')

/-- Does the SQL text contain a `?` parameter marker? -/
def hasParamMarker (q : String) : Bool := strAny q (fun c => c = '?')

/-- The sqlite storage collaborator, for the statement shapes this repository
issues.  Python DB-API rule: `cursor.execute(q)` with no parameters while `q`
contains a `?` marker raises `sqlite3.ProgrammingError` (incorrect number of
bindings), a subclass of `sqlite3.Error`; the statement has no effect.
`DROP TABLE` and `ALTER TABLE ... RENAME TO` fail when the source table does
not exist; `CREATE TABLE IF NOT EXISTS` is idempotent. -/
def sqliteEngine : Engine := fun db q =>
  if hasParamMarker q then none
  else if strStartsWith q "DROP TABLE " then
    let t := stripSemi (strDrop q (strLength "DROP TABLE "))
    if t ∈ tableNames db then some (db.filter (fun p => p.1 ≠ t)) else none
  else if strStartsWith q "ALTER TABLE " then
    let rest := strDrop q (strLength "ALTER TABLE ")
    let src := strTakeWhile rest (fun c => c ≠ ' ')
    let rest2 := strDrop rest (strLength src)
    if strStartsWith rest2 " RENAME TO " then
      let dst := stripSemi (strDrop rest2 (strLength " RENAME TO "))
      if src ∈ tableNames db then
        some (db.map (fun p => if p.1 = src then (dst, p.2) else p))
      else none
    else none
  else if strStartsWith q "CREATE TABLE IF NOT EXISTS " then
    let t := strTakeWhile (strDrop q (strLength "CREATE TABLE IF NOT EXISTS "))
      (fun c => c ≠ ' ')
    if t ∈ tableNames db then some db else some (db ++ [(t, [])])
  else none

/-- The result of `DBConnector.execute_query`: the (possibly updated) database
state, whether a cursor was returned, and the log lines emitted. -/
structure QueryResult where
  db : DBState
  cursor : Bool
  logs : List String
deriving DecidableEq, Repr

/-- `DBConnector.execute_query` (`db_connector.py`, lines 22-38): without a
connection, log and return `None`; execute the statement and return the
cursor; on `sqlite3.Error` (or any other exception) log it and return `None`
-- the error never propagates to the caller. -/
def execute_query (engine : Engine) (connected : Bool) (db : DBState)
    (query : String) : QueryResult :=
  if connected then
    match engine db query with
    | some db2 => { db := db2, cursor := true, logs := [] }
    | none => { db := db, cursor := false, logs := ["sqlite Error"] }
  else
    { db := db, cursor := false,
      logs := ["DBConnector: Connection not established"] }

/-- The five statements of `sort_table_on_time` (lines 225-233) after
`query.format(*params)`: `str.format` substitutes only the `{}` slots
(extra arguments are ignored) and leaves every `?` in place as literal SQL
text; `db.execute_query(...)` is then called with no parameters. -/
def sort_table_queries (table_name time_column_name : String) : List String :=
  ["DELETE FROM " ++ table_name ++
     " WHERE rowid NOT IN(SELECT MIN(rowid) FROM " ++ table_name ++
     " GROUP BY ?);",
   "CREATE TABLE " ++ table_name ++ "_clean AS SELECT DISTINCT * FROM " ++
     table_name ++ " ORDER BY ?;",
   "DROP TABLE " ++ table_name ++ ";",
   "ALTER TABLE " ++ table_name ++ "_clean RENAME TO " ++ table_name ++ ";",
   "CREATE UNIQUE INDEX idx_" ++ table_name ++ "_" ++
     (strReplaceChar time_column_name ' ' '_') ++ " ON " ++ table_name ++
     "(?);"]

/-- `sort_table_on_time` (`db_writer.py`, lines 213-237): run the five
statements in order through `DBConnector.execute_query` on one connection,
then print the success message.  Returns the final database state, the lines
printed, and the log lines the connector emitted. -/
def sort_table_on_time (engine : Engine) (db : DBState)
    (db_name table_name time_column_name : String) :
    DBState × List String × List String :=
  let folded :=
    (sort_table_queries table_name time_column_name).foldl
      (fun acc q =>
        let r := execute_query engine true acc.1 q
        (r.db, acc.2 ++ r.logs))
      (db, ([] : List String))
  (folded.1,
   ["Table " ++ table_name ++ " modified successfully in " ++ db_name],
   folded.2)

/-- `DBCreator.create_table` (`db_creator.py`, lines 342-353): build the
`CREATE TABLE IF NOT EXISTS` statement, run it through
`DBConnector.execute_query`, and print the success message unconditionally. -/
def create_table (engine : Engine) (db : DBState) (c : DBCreator) :
    DBState × List String × List String :=
  let columns_def :=
    String.intercalate ", " (c.columns.map (fun p => p.1 ++ " " ++ p.2))
  let q := "CREATE TABLE IF NOT EXISTS " ++ c.table_name ++ " (" ++
    columns_def ++ ")"
  let r := execute_query engine true db q
  (r.db,
   ["Table \x27" ++ c.table_name ++ "\x27 created successfully in " ++
     c.db_name],
   r.logs)

/-- The window row derived from a reference timestamp: the projection of a
well-formed reference row to `[start_time, end_time]`. -/
def windowRow (ρ : ℚ) : Row :=
  [("start_time", some (ρ - 1)), ("end_time", some (ρ + 1))]

/-- Whether the merge-then-mask of `filter_dataframe` keeps a candidate with
parsed timestamp `t0`, as a function of the sorted window rows. -/
def keepQ (sR : List Row) (t0 : ℚ) : Bool :=
  match asofMatch sR t0 with
  | some w =>
      match getCell w "start_time", getCell w "end_time" with
      | some s, some e => decide (s ≤ t0 ∧ t0 ≤ e)
      | _, _ => false
  | none => false

theorem getCell_setCell_self (r : Row) (c : String) (v : Cell) :
    getCell (setCell r c v) c = v := by
  induction r with
  | nil => simp [setCell, getCell]
  | cons kv rest ih =>
      obtain ⟨k, w⟩ := kv
      by_cases h : k = c
      · simp [setCell, h, getCell]
      · simp [setCell, h, getCell, ih]

theorem getCell_setCell_ne (r : Row) {c c2 : String} (h : c2 ≠ c) (v : Cell) :
    getCell (setCell r c v) c2 = getCell r c2 := by
  have hcc : ¬ c = c2 := fun hh => h hh.symm
  induction r with
  | nil => simp [setCell, getCell, hcc]
  | cons kv rest ih =>
      obtain ⟨k, w⟩ := kv
      by_cases hk : k = c
      · subst hk
        simp [setCell, getCell, hcc]
      · by_cases hk2 : k = c2
        · simp [setCell, hk, getCell, hk2, h]
        · simp [setCell, hk, getCell, hk2, ih]

theorem getCell_dropCell_ne (r : Row) {c c2 : String} (h : c2 ≠ c) :
    getCell (dropCell r c) c2 = getCell r c2 := by
  induction r with
  | nil => simp [dropCell, getCell]
  | cons kv rest ih =>
      obtain ⟨k, w⟩ := kv
      by_cases hk : k = c
      · subst hk
        have hk2 : ¬ k = c2 := fun hh => h hh.symm
        simp [dropCell, getCell, hk2, ih]
      · by_cases hk2 : k = c2
        · simp [dropCell, getCell, hk, hk2, h]
        · simp [dropCell, getCell, hk, hk2, ih]

/-- C5: with no reference path, `DataExtractor` stores `None` as the
reference; `filter_dataframe` subscripts it at line 23 and raises `TypeError`
instead of passing the chunk through, and `process_file` (which catches only
`FileNotFoundError`) propagates the exception, enqueuing nothing. -/
theorem filter_none_reference_crashes :
    (∀ (target : DataFrame) (tw : ℚ),
      filter_dataframe none target tw =
        Except.error
          "TypeError: argument of type NoneType is not subscriptable") ∧
    (∀ (chunk : DataFrame) (table : String),
      process_file none table (some [chunk]) =
        (Except.error
          "TypeError: argument of type NoneType is not subscriptable", [])) := by
  constructor
  · intro target tw; rfl
  · intro chunk table; rfl

/-- C10: `DBConnector.execute_query` swallows every sqlite error (logs it and
returns `None`); `sort_table_on_time` therefore runs all five statements and
prints its success message, and `DBCreator.create_table` prints its success
message, even when every underlying statement fails. -/
theorem execute_query_swallows_errors :
    (∀ (engine : Engine) (db : DBState) (q : String), engine db q = none →
      execute_query engine true db q =
        { db := db, cursor := false, logs := ["sqlite Error"] }) ∧
    (∀ (engine : Engine) (db : DBState) (dbn t tc : String),
      (sort_table_on_time engine db dbn t tc).2.1 =
        ["Table " ++ t ++ " modified successfully in " ++ dbn]) ∧
    (∀ (db : DBState) (dbn t tc : String),
      (sort_table_on_time (fun _ _ => none) db dbn t tc).2.2 =
        ["sqlite Error", "sqlite Error", "sqlite Error", "sqlite Error",
         "sqlite Error"]) ∧
    (∀ (engine : Engine) (db : DBState) (c : DBCreator),
      (create_table engine db c).2.1 =
        ["Table \x27" ++ c.table_name ++ "\x27 created successfully in " ++
          c.db_name]) := by
  refine ⟨?_, ?_, ?_, ?_⟩
  · intro engine db q h
    simp [execute_query, h]
  · intro engine db dbn t tc; rfl
  · intro db dbn t tc; rfl
  · intro engine db c; rfl

theorem execute_query_swallows_errors_witness :
    execute_query (fun _ _ => none) true [] "DROP TABLE ticks;" =
      { db := [], cursor := false, logs := ["sqlite Error"] } :=
  execute_query_swallows_errors.1 (fun _ _ => none) [] "DROP TABLE ticks;" rfl

/-- C1: `sort_table_on_time` destroys the table instead of compacting it.
`str.format` substitutes only the `\x7b\x7d` slots, so the `DELETE`, `CREATE
TABLE ... AS`, and `CREATE UNIQUE INDEX` statements keep a literal `?` marker
and are executed with no parameters: each raises and is swallowed by
`execute_query`.  Only `DROP TABLE` succeeds, and the subsequent `ALTER`
fails because the `_clean` table was never created.  The success message is
printed anyway.  Concretely, a `ticks` table with duplicated timestamps is
simply deleted. -/
theorem sort_table_on_time_drops_table :
    sort_table_on_time sqliteEngine
        [("ticks", [[("time", some 1)], [("time", some 1)], [("time", some 0)]])]
        "EURUSD.db" "ticks" "time" =
      ([], ["Table ticks modified successfully in EURUSD.db"],
       ["sqlite Error", "sqlite Error", "sqlite Error", "sqlite Error"]) := by
  rfl

/-- C7 counterexample: the column type `"text"` is outside
`{TEXT, TIMESTAMP, REAL, INTEGER}` as the claim states it, yet `DBCreator`
accepts it, because `_validate_columns` compares `col_type.upper()`. -/
theorem creator_accepts_lowercase_type :
    DBCreator_init "x" "t" [("c", "text")] =
        Except.ok ⟨"x.db", "t", [("c", "text")]⟩ ∧
      "text" ∉ valid_types := by
  exact ⟨rfl, by decide⟩

theorem columnsError_names_offender :
    ∀ (cols : List (String × String)) (e : String), columnsError cols = some e →
      ∃ n ty, (n, ty) ∈ cols ∧
        (e = "Invalid column name: " ++ n ∨
         e = "Invalid column type for " ++ n ++ ": " ++ ty) := by
  intro cols
  induction cols with
  | nil => intro e h; simp [columnsError] at h
  | cons p rest ih =>
      obtain ⟨n, ty⟩ := p
      intro e h
      by_cases h1 : matchValidName n = true
      · by_cases h2 : strToUpper ty ∈ valid_types
        · rw [columnsError, if_pos h1, if_pos h2] at h
          obtain ⟨n2, ty2, hmem, hor⟩ := ih e h
          exact ⟨n2, ty2, List.mem_cons_of_mem _ hmem, hor⟩
        · rw [columnsError, if_pos h1, if_neg h2] at h
          exact ⟨n, ty, List.mem_cons_self _ _,
            Or.inr (Option.some.inj h).symm⟩
      · rw [columnsError, if_neg h1] at h
        exact ⟨n, ty, List.mem_cons_self _ _,
          Or.inl (Option.some.inj h).symm⟩

/-- C7 amended: `DBCreator` accepts a declaration iff the table name matches
Python's `re.match` of `^[a-zA-Z_][a-zA-Z0-9_]*$` (which also admits a single
trailing newline) and every column name matches it and every column type is
one of the allowed types up to upper-casing; a violation raises `ValueError`
naming the offending identifier, at construction time, before any store
statement can run; in particular the table name `1bad` is rejected. -/
theorem creator_validation :
    ∀ (db t : String) (cols : List (String × String)),
      ((isOkE (DBCreator_init db t cols) = true) ↔
        (matchValidName t = true ∧ columnsError cols = none)) ∧
      (matchValidName t = false →
        DBCreator_init db t cols =
          Except.error ("Invalid table name: " ++ t)) ∧
      (∀ e, DBCreator_init db t cols = Except.error e →
        e = "Invalid table name: " ++ t ∨
          ∃ n ty, (n, ty) ∈ cols ∧
            (e = "Invalid column name: " ++ n ∨
             e = "Invalid column type for " ++ n ++ ": " ++ ty)) ∧
      DBCreator_init db "1bad" cols =
        Except.error "Invalid table name: 1bad" := by
  intro db t cols
  refine ⟨?_, ?_, ?_, ?_⟩
  · by_cases h1 : matchValidName t = true
    · cases h2 : columnsError cols with
      | none => simp [DBCreator_init, validate_table_name, h1, h2, isOkE]
      | some e => simp [DBCreator_init, validate_table_name, h1, h2, isOkE]
    · have h1f : matchValidName t = false := by
        cases hval : matchValidName t
        · rfl
        · exact absurd hval h1
      simp [DBCreator_init, validate_table_name, h1f, isOkE]
  · intro h1
    simp [DBCreator_init, validate_table_name, h1]
  · intro e he
    by_cases h1 : matchValidName t = true
    · cases h2 : columnsError cols with
      | none =>
          rw [DBCreator_init, validate_table_name, if_pos h1, h2] at he
          exact absurd he (by simp)
      | some e2 =>
          rw [DBCreator_init, validate_table_name, if_pos h1, h2] at he
          have he2 : e2 = e := Except.error.inj he
          exact Or.inr (columnsError_names_offender cols e (he2 ▸ h2))
    · have h1f : matchValidName t = false := by
        cases hval : matchValidName t
        · rfl
        · exact absurd hval h1
      rw [DBCreator_init, validate_table_name, if_neg (by simp [h1f])] at he
      exact Or.inl (Except.error.inj he).symm
  · rfl

theorem creator_validation_witness :
    DBCreator_init "x" "1bad" [("c", "TEXT")] =
      Except.error "Invalid table name: 1bad" :=
  (creator_validation "x" "t" [("c", "TEXT")]).2.2.2

/-- C9 counterexample: a file explicitly assigned to table `askPrices` in the
static mapping is reassigned to the default `data_table` when the directory
scan finds the same path, because `dict.update` overwrites existing keys. -/
theorem get_csv_files_overrides_static :
    get_csv_files [("d/a.csv", "askPrices")] "d"
        [{ name := "a.csv", isRegularFile := true }] =
      [("d/a.csv", "data_table")] ∧
    dictGet [("d/a.csv", "askPrices")] "d/a.csv" = some "askPrices" :=
  ⟨rfl, rfl⟩

theorem dictGet_dictSet_self :
    ∀ (m : List (String × String)) (k v : String),
      dictGet (dictSet m k v) k = some v := by
  intro m k v
  induction m with
  | nil => simp [dictSet, dictGet]
  | cons p rest ih =>
      obtain ⟨k1, v1⟩ := p
      by_cases h : k1 = k
      · simp [dictSet, h, dictGet]
      · simp [dictSet, h, dictGet, ih]

theorem dictGet_dictSet_ne :
    ∀ (m : List (String × String)) (k v k2 : String), k2 ≠ k →
      dictGet (dictSet m k v) k2 = dictGet m k2 := by
  intro m k v k2 h
  have hkk : ¬ k = k2 := fun hh => h hh.symm
  induction m with
  | nil => simp [dictSet, dictGet, hkk]
  | cons p rest ih =>
      obtain ⟨k1, v1⟩ := p
      by_cases h1 : k1 = k
      · subst h1
        simp [dictSet, dictGet, hkk]
      · by_cases h2 : k1 = k2
        · simp [dictSet, h1, dictGet, h2, h]
        · simp [dictSet, h1, dictGet, h2, ih]

theorem dictGet_update_nomem :
    ∀ (upd : List (String × String)) (base : List (String × String))
      (k : String), k ∉ upd.map Prod.fst →
      dictGet (dict_update base upd) k = dictGet base k := by
  intro upd
  induction upd with
  | nil => intro base k _; rfl
  | cons p rest ih =>
      obtain ⟨k1, v1⟩ := p
      intro base k hk
      simp only [List.map_cons, List.mem_cons] at hk
      push_neg at hk
      have h1 : dict_update base ((k1, v1) :: rest) =
          dict_update (dictSet base k1 v1) rest := rfl
      rw [h1, ih (dictSet base k1 v1) k hk.2,
        dictGet_dictSet_ne base k1 v1 k hk.1]

theorem dictGet_update_const :
    ∀ (upd : List (String × String)) (base : List (String × String))
      (k v : String), (∀ kv ∈ upd, kv.2 = v) → k ∈ upd.map Prod.fst →
      dictGet (dict_update base upd) k = some v := by
  intro upd
  induction upd with
  | nil => intro base k v _ hk; simp at hk
  | cons p rest ih =>
      obtain ⟨k1, v1⟩ := p
      intro base k v hval hk
      have h1 : dict_update base ((k1, v1) :: rest) =
          dict_update (dictSet base k1 v1) rest := rfl
      by_cases hmem : k ∈ rest.map Prod.fst
      · rw [h1]
        exact ih (dictSet base k1 v1) k v
          (fun kv hkv => hval kv (List.mem_cons_of_mem _ hkv)) hmem
      · simp only [List.map_cons, List.mem_cons] at hk
        rcases hk with hk | hk
        · subst hk
          have hv1 : v1 = v := hval (k, v1) (List.mem_cons_self _ _)
          rw [h1, dictGet_update_nomem rest (dictSet base k v1) k hmem,
            dictGet_dictSet_self, hv1]
        · exact absurd hk hmem

/-- C9 amended: `get_csv_files` routes every directory-scanned regular `.csv`
file to the default `data_table` — overriding the static mapping when the
scanned path is explicitly named there, since `dict.update` overwrites — and
a path not among the scanned files keeps its static assignment. -/
theorem get_csv_files_assignment :
    ∀ (data_paths : List (String × String)) (directory : String)
      (listing : List DirEntry) (k : String),
      (k ∈ scanned_paths directory listing →
        dictGet (get_csv_files data_paths directory listing) k =
          some "data_table") ∧
      (k ∉ scanned_paths directory listing →
        dictGet (get_csv_files data_paths directory listing) k =
          dictGet data_paths k) := by
  intro data_paths directory listing k
  have hkeys : ((scanned_names listing).map
      (fun f => (os_path_join directory f, "data_table"))).map Prod.fst =
      scanned_paths directory listing := by
    simp only [scanned_paths, List.map_map]
    rfl
  constructor
  · intro hk
    refine dictGet_update_const _ data_paths k "data_table" ?_ ?_
    · intro kv hkv
      obtain ⟨f, _, hf⟩ := List.mem_map.mp hkv
      rw [← hf]
    · rw [hkeys]; exact hk
  · intro hk
    refine dictGet_update_nomem _ data_paths k ?_
    rw [hkeys]; exact hk

theorem get_csv_files_assignment_witness :
    dictGet (get_csv_files [("d/a.csv", "askPrices")] "d"
        [{ name := "a.csv", isRegularFile := true }]) "d/a.csv" =
      some "data_table" :=
  (get_csv_files_assignment [("d/a.csv", "askPrices")] "d"
    [{ name := "a.csv", isRegularFile := true }] "d/a.csv").1
    (show "d/a.csv" ∈ ["d/a.csv"] from List.mem_singleton_self _)

theorem retryLoop_attempts_le :
    ∀ (oracle : Nat → WriteOutcome) (n i : Nat),
      (retryLoop oracle n i).2.1 ≤ n := by
  intro oracle n
  induction n with
  | zero => intro i; simp [retryLoop]
  | succ n ih =>
      intro i
      cases h : oracle i with
      | ok => simp [retryLoop, h]
      | opError =>
          simp only [retryLoop, h]
          exact Nat.succ_le_succ (ih (i + 1))

theorem retryLoop_allFail (oracle : Nat → WriteOutcome)
    (h : ∀ j, oracle j = WriteOutcome.opError) :
    ∀ (n i : Nat), retryLoop oracle n i = (false, n, n) := by
  intro n
  induction n with
  | zero => intro i; rfl
  | succ n ih =>
      intro i
      simp [retryLoop, h i, ih (i + 1)]

theorem write_to_db_logs_nil :
    ∀ (oracle : Nat → Nat → WriteOutcome) (idx : Nat) (items : List Item),
      (write_to_db oracle idx items).logs = [] := by
  intro oracle idx items
  induction items generalizing idx with
  | nil => rfl
  | cons it rest ih =>
      obtain ⟨c, tn⟩ := it
      cases c with
      | none => rfl
      | some chunk => simp [write_to_db, ih (idx + 1)]

/-- C4 amended: the writer makes at most 5 `to_sql` attempts for a chunk
(`retry_count = 5`: the initial try plus up to 4 retries), sleeping one time
unit after every `OperationalError` — including after the final attempt; when
all 5 attempts fail the chunk is dropped and the loop continues with the next
item, never aborting; but the drop is silent: `write_to_db` emits no log or
count whatsoever. -/
theorem write_retry_policy (oracle : Nat → Nat → WriteOutcome) (idx : Nat)
    (chunk : DataFrame) (tname : Option String) (rest : List Item)
    (hfail : ∀ j, oracle idx j = WriteOutcome.opError) :
    (retryLoop (oracle idx) 5 0).2.1 ≤ 5 ∧
    retryLoop (oracle idx) 5 0 = (false, 5, 5) ∧
    (write_to_db oracle idx ((some chunk, tname) :: rest)).written =
      (write_to_db oracle (idx + 1) rest).written ∧
    (write_to_db oracle idx ((some chunk, tname) :: rest)).droppedChunks =
      1 + (write_to_db oracle (idx + 1) rest).droppedChunks ∧
    (write_to_db oracle idx ((some chunk, tname) :: rest)).sentinelSeen =
      (write_to_db oracle (idx + 1) rest).sentinelSeen ∧
    (write_to_db oracle idx ((some chunk, tname) :: rest)).popped =
      (write_to_db oracle (idx + 1) rest).popped + 1 ∧
    (write_to_db oracle idx ((some chunk, tname) :: rest)).logs = [] := by
  have hra := retryLoop_allFail (oracle idx) hfail 5 0
  refine ⟨retryLoop_attempts_le (oracle idx) 5 0, hra, ?_, ?_, ?_, ?_,
    write_to_db_logs_nil oracle idx _⟩
  · simp [write_to_db, hra]
  · simp [write_to_db, hra]
  · simp [write_to_db, hra]
  · simp [write_to_db, hra]

theorem write_retry_policy_witness :
    retryLoop ((fun (_ : Nat) (_ : Nat) => WriteOutcome.opError) 0) 5 0 =
      (false, 5, 5) :=
  (write_retry_policy (fun _ _ => WriteOutcome.opError) 0
    ⟨[], []⟩ none [] (fun _ => rfl)).2.1

/-- C4 counterexample: a chunk whose five append attempts all hit
`OperationalError` is dropped (`droppedChunks = 1`, nothing written) while the
writer emits no log or count at all (`logs = []`) — the drop is not
observable from `write_to_db`, contrary to the claim. -/
theorem write_drop_not_logged :
    write_to_db (fun _ _ => WriteOutcome.opError) 0
        [(some ⟨["Gmt time"], [[("Gmt time", some 0)]]⟩, some "ticks"),
         (none, none)] =
      { written := [], droppedChunks := 1, sleeps := 5, popped := 1,
        logs := [], sentinelSeen := true, leftover := [] } := by
  rfl

theorem write_to_db_drains (oracle : Nat → Nat → WriteOutcome) :
    ∀ (items : List Item) (idx : Nat),
      (∀ it ∈ items, it.1.isSome = true) →
      (write_to_db oracle idx (items ++ [(none, none)])).sentinelSeen = true ∧
      (write_to_db oracle idx (items ++ [(none, none)])).popped =
        items.length ∧
      (write_to_db oracle idx (items ++ [(none, none)])).leftover = [] := by
  intro items
  induction items with
  | nil => intro idx _; exact ⟨rfl, rfl, rfl⟩
  | cons it rest ih =>
      intro idx h
      obtain ⟨c, tn⟩ := it
      have hc : c.isSome = true := h (c, tn) (List.mem_cons_self _ _)
      cases c with
      | none => simp at hc
      | some chunk =>
          have hr := ih (idx + 1)
            (fun x hx => h x (List.mem_cons_of_mem _ hx))
          refine ⟨?_, ?_, ?_⟩
          · simp [write_to_db, hr.1]
          · simp [write_to_db, hr.2.1]
          · simp [write_to_db, hr.2.2]

/-- C3: the claimed two-phase join is the written design — the statement
sequence of `run` joins every producer, then puts exactly one sentinel, then
joins the writer, and the writer loop drains every real item before the
sentinel stops it — but `DataExtractor.run` never executes it: its very
first statement, `DBCreator(self.name).create_table()` (line 195), calls the
three-parameter `DBCreator.__init__` with one argument and raises
`TypeError`, so `run` crashes before the writer is started, any producer is
spawned, or any sentinel is enqueued. -/
theorem run_crashes_before_pipeline :
    ∀ (n : Nat) (oracle : Nat → Nat → WriteOutcome) (items : List Item),
      (∀ it ∈ items, it.1.isSome = true) →
      (DataExtractor_run n =
        Except.error
          "TypeError: DBCreator.__init__() missing 2 required positional arguments: \x27table_name\x27 and \x27columns\x27") ∧
      ((run_trace n).count RunStep.putSentinel = 1) ∧
      (∃ pre, run_trace n = pre ++ [RunStep.putSentinel, RunStep.joinWriter] ∧
        (∀ i < n, RunStep.joinProducer i ∈ pre) ∧
        RunStep.putSentinel ∉ pre) ∧
      (write_to_db oracle 0 (items ++ [(none, none)])).sentinelSeen = true ∧
      (write_to_db oracle 0 (items ++ [(none, none)])).popped =
        items.length ∧
      (write_to_db oracle 0 (items ++ [(none, none)])).leftover = [] := by
  intro n oracle items hitems
  have hdrain := write_to_db_drains oracle items 0 hitems
  have hpre : run_trace n =
      ([RunStep.createTables, RunStep.startWriter]
        ++ (List.range n).map RunStep.startProducer
        ++ (List.range n).map RunStep.joinProducer)
      ++ [RunStep.putSentinel, RunStep.joinWriter] := by
    simp [run_trace, List.append_assoc]
  have hnotmem : RunStep.putSentinel ∉
      ([RunStep.createTables, RunStep.startWriter]
        ++ (List.range n).map RunStep.startProducer
        ++ (List.range n).map RunStep.joinProducer) := by
    simp
  refine ⟨rfl, ?_, ⟨_, hpre, ?_, hnotmem⟩, hdrain.1, hdrain.2.1, hdrain.2.2⟩
  · rw [hpre, List.count_append, List.count_eq_zero.mpr hnotmem]
    decide
  · intro i hi
    refine List.mem_append_right _ ?_
    exact List.mem_map.mpr ⟨i, List.mem_range.mpr hi, rfl⟩

theorem run_crashes_before_pipeline_witness :
    isOkE (DataExtractor_run 1) = false ∧
    (run_trace 1).count RunStep.putSentinel = 1 ∧
    (write_to_db (fun _ _ => WriteOutcome.ok) 0
        ([((some ⟨[], []⟩ : Option DataFrame), some "t")] ++
          [(none, none)])).popped = 1 := by
  have h := run_crashes_before_pipeline 1 (fun _ _ => WriteOutcome.ok)
    [((some ⟨[], []⟩ : Option DataFrame), some "t")]
    (by
      intro it hit
      rw [List.mem_singleton] at hit
      subst hit
      rfl)
  refine ⟨?_, h.2.1, h.2.2.2.2.1⟩
  rw [h.1]
  rfl

/-- C6: with a well-formed reference, `filter_dataframe` raises exactly when
the candidate chunk carries neither of the two recognized time-column shapes
(`Gmt time`, `RELEASE_TIME`); with either column present it returns without
raising; and `process_file`, which catches only `FileNotFoundError`,
propagates the `ValueError` to its caller. -/
theorem filter_schema_error_iff :
    ∀ (ref target : DataFrame) (tw : ℚ) (table : String),
      DataModel.time_column ∈ ref.cols →
      ref.rows.all (fun r => (getCell r DataModel.time_column).isSome) = true →
      ((isOkE (filter_dataframe (some ref) target tw) = false) ↔
        (DataModel.time_column ∉ target.cols ∧
          "RELEASE_TIME" ∉ target.cols)) ∧
      ((DataModel.time_column ∉ target.cols ∧ "RELEASE_TIME" ∉ target.cols) →
        (process_file (some ref) table (some [target])).1 =
          Except.error
            "Neither \x27DataModel.time_column\x27 nor \x27DataModel.time_column\x27 and \x27RELEASE_TIME\x27 column found in the DataFrame") := by
  intro ref target tw table h1 h2
  by_cases htc : DataModel.time_column ∈ target.cols
  · constructor
    · simp [filter_dataframe, h1, h2, htc, isOkE]
    · intro hcon
      exact absurd htc hcon.1
  · by_cases hrt : "RELEASE_TIME" ∈ target.cols
    · constructor
      · simp [filter_dataframe, h1, h2, htc, hrt, isOkE]
      · intro hcon
        exact absurd hrt hcon.2
    · have hferr : ∀ twx : ℚ,
          filter_dataframe (some ref) target twx =
            Except.error
              "Neither \x27DataModel.time_column\x27 nor \x27DataModel.time_column\x27 and \x27RELEASE_TIME\x27 column found in the DataFrame" := by
        intro twx
        simp [filter_dataframe, h1, h2, htc, hrt]
      constructor
      · simp [hferr tw, isOkE, htc, hrt]
      · intro _
        simp [process_file, process_chunks, hferr 1]

theorem filter_schema_error_iff_witness :
    isOkE (filter_dataframe (some ⟨["Gmt time"], []⟩) ⟨["price"], []⟩ 1) =
      false :=
  ((filter_schema_error_iff ⟨["Gmt time"], []⟩ ⟨["price"], []⟩ 1 "t"
      (by decide) (by decide)).1).mpr (by decide)

/-- C8 counterexample: after one successful alignment call the reference
dataframe carries two extra columns (`start_time`, `end_time`) that
`filter_dataframe` wrote into it in place — the reference argument is not
left unchanged and the window bounds are not kept in a separate structure. -/
theorem filter_mutates_reference :
    refColsOf (filter_dataframe
        (some ⟨["Gmt time"], [[("Gmt time", some 0)]]⟩)
        ⟨["Gmt time"], [[("Gmt time", some 0)]]⟩ 1) =
      ["Gmt time", "start_time", "end_time"] ∧
    (DataFrame.mk ["Gmt time"] [[("Gmt time", some 0)]]).cols =
      ["Gmt time"] := by
  exact ⟨rfl, rfl⟩

/-- C8 amended: on the main alignment path, `filter_dataframe` mutates the
caller's reference dataframe in place: it re-parses the time column and
appends `start_time`/`end_time` columns holding each reference timestamp
minus/plus one minute.  The returned reference state carries those window
bounds in its own rows. -/
theorem filter_writes_windows_into_reference :
    ∀ (ref target : DataFrame) (tw : ℚ),
      DataModel.time_column ∈ ref.cols →
      ref.rows.all (fun r => (getCell r DataModel.time_column).isSome) = true →
      DataModel.time_column ∈ target.cols →
      "start_time" ∉ ref.cols → "end_time" ∉ ref.cols →
      ∃ ref3 res,
        filter_dataframe (some ref) target tw = Except.ok (ref3, res) ∧
        ref3.cols = ref.cols ++ ["start_time", "end_time"] ∧
        (∀ r ∈ ref3.rows,
          getCell r "start_time" =
            (getCell r DataModel.time_column).map (fun t => t - 1) ∧
          getCell r "end_time" =
            (getCell r DataModel.time_column).map (fun t => t + 1)) := by
  intro ref target tw h1 h2 h3 hs he
  have htc_ne_st : DataModel.time_column ≠ "start_time" := by decide
  have htc_ne_et : DataModel.time_column ≠ "end_time" := by decide
  have hst_ne_et : "start_time" ≠ "end_time" := by decide
  refine ⟨(mainAlign (parseRefStage ref) target).1,
    (mainAlign (parseRefStage ref) target).2, ?_, ?_, ?_⟩
  · simp [filter_dataframe, h1, h2, h3]
  · have hm : (mainAlign (parseRefStage ref) target).1 =
        addWindowCols (parseRefStage ref) := rfl
    have hc1 : (parseRefStage ref).cols = ref.cols := by
      simp [parseRefStage, setColumn, h1]
    have h4 : "start_time" ∉ (parseRefStage ref).cols := by
      rw [hc1]; exact hs
    have h5 : "end_time" ∉ (parseRefStage ref).cols ++ ["start_time"] := by
      rw [hc1]; simp [he]
    rw [hm]
    simp only [addWindowCols, setColumn, if_neg h4, if_neg h5]
    rw [hc1, List.append_assoc]
    rfl
  · intro r hr
    have hrows : (mainAlign (parseRefStage ref) target).1.rows =
        ((parseRefStage ref).rows.map
          (fun r => setCell r "start_time"
            ((getCell r DataModel.time_column).map (fun t => t - 1)))).map
          (fun r => setCell r "end_time"
            ((getCell r DataModel.time_column).map (fun t => t + 1))) := rfl
    rw [hrows] at hr
    obtain ⟨r2, hr2, rfl⟩ := List.mem_map.mp hr
    obtain ⟨r1, hr1, rfl⟩ := List.mem_map.mp hr2
    constructor
    · rw [getCell_setCell_ne _ hst_ne_et, getCell_setCell_self,
        getCell_setCell_ne _ htc_ne_et, getCell_setCell_ne _ htc_ne_st]
    · rw [getCell_setCell_self, getCell_setCell_ne _ htc_ne_st,
        getCell_setCell_ne _ htc_ne_et, getCell_setCell_ne _ htc_ne_st]

theorem filter_writes_windows_into_reference_witness :
    refColsOf (filter_dataframe
        (some ⟨["Gmt time"], [[("Gmt time", some 3)]]⟩)
        ⟨["Gmt time"], []⟩ 1) =
      ["Gmt time", "start_time", "end_time"] := by
  obtain ⟨ref3, res, heq, hcols, _⟩ := filter_writes_windows_into_reference
    ⟨["Gmt time"], [[("Gmt time", some 3)]]⟩ ⟨["Gmt time"], []⟩ 1
    (by decide) (by decide) (by decide) (by decide) (by decide)
  rw [heq]
  simpa [refColsOf] using hcols

theorem getCellStartAfterSetEnd (r : Row) (v : Cell) :
    getCell (setCell r "end_time" v) "start_time" = getCell r "start_time" :=
  getCell_setCell_ne r (by decide) v

theorem getCellTimeAfterSetStart (r : Row) (v : Cell) :
    getCell (setCell r "start_time" v) DataModel.time_column =
      getCell r DataModel.time_column :=
  getCell_setCell_ne r (by decide) v

theorem getCellTimeAfterSetEnd (r : Row) (v : Cell) :
    getCell (setCell r "end_time" v) DataModel.time_column =
      getCell r DataModel.time_column :=
  getCell_setCell_ne r (by decide) v

theorem getCell_windowRow_start (ρ : ℚ) :
    getCell (windowRow ρ) "start_time" = some (ρ - 1) := rfl

theorem getCell_windowRow_end (ρ : ℚ) :
    getCell (windowRow ρ) "end_time" = some (ρ + 1) := rfl

theorem rowTimeVal_windowRow (ρ : ℚ) :
    rowTimeVal "start_time" (windowRow ρ) = ρ - 1 := by
  simp [rowTimeVal, getCell_windowRow_start]

theorem asofFold_mem :
    ∀ (l : List Row) (t : ℚ) (acc : Option Row) (w : Row),
      List.foldl
          (fun acc r => if rowTimeVal "start_time" r ≤ t then some r else acc)
          acc l = some w →
      w ∈ l ∨ acc = some w := by
  intro l t
  induction l with
  | nil => intro acc w h; exact Or.inr h
  | cons r rest ih =>
      intro acc w h
      rw [List.foldl_cons] at h
      rcases ih _ w h with hm | hacc
      · exact Or.inl (List.mem_cons_of_mem _ hm)
      · by_cases hc : rowTimeVal "start_time" r ≤ t
        · rw [if_pos hc] at hacc
          exact Or.inl (by rw [← Option.some.inj hacc]
                           exact List.mem_cons_self _ _)
        · rw [if_neg hc] at hacc
          exact Or.inr hacc

theorem asofMatch_mem (l : List Row) (t : ℚ) (w : Row)
    (h : asofMatch l t = some w) : w ∈ l := by
  rcases asofFold_mem l t none w h with hm | hacc
  · exact hm
  · simp at hacc

theorem asofFold_some_le :
    ∀ (l : List Row) (t : ℚ) (a : Row),
      rowTimeVal "start_time" a ≤ t →
      ∃ w, List.foldl
          (fun acc r => if rowTimeVal "start_time" r ≤ t then some r else acc)
          (some a) l = some w ∧ rowTimeVal "start_time" w ≤ t := by
  intro l t
  induction l with
  | nil => intro a ha; exact ⟨a, rfl, ha⟩
  | cons r rest ih =>
      intro a ha
      rw [List.foldl_cons]
      by_cases hc : rowTimeVal "start_time" r ≤ t
      · rw [if_pos hc]
        exact ih r hc
      · rw [if_neg hc]
        exact ih a ha

theorem asofMatch_exists :
    ∀ (l : List Row) (t : ℚ),
      (∃ r ∈ l, rowTimeVal "start_time" r ≤ t) →
      ∃ w, asofMatch l t = some w ∧ rowTimeVal "start_time" w ≤ t := by
  intro l t
  induction l with
  | nil => rintro ⟨r, hr, _⟩; simp at hr
  | cons r rest ih =>
      rintro ⟨r2, hr2, hle2⟩
      simp only [asofMatch, List.foldl_cons]
      by_cases hc : rowTimeVal "start_time" r ≤ t
      · rw [if_pos hc]
        exact asofFold_some_le rest t r hc
      · rw [if_neg hc]
        rcases List.mem_cons.mp hr2 with he | hm
        · exfalso
          rw [he] at hle2
          exact hc hle2
        · exact ih ⟨r2, hm, hle2⟩

theorem asofMatch_max :
    ∀ (l : List Row) (t : ℚ),
      List.Sorted (rowLe "start_time") l →
      ∀ w, asofMatch l t = some w →
      ∀ r ∈ l, rowTimeVal "start_time" r ≤ t →
        rowTimeVal "start_time" r ≤ rowTimeVal "start_time" w := by
  intro l
  induction l using List.reverseRecOn with
  | nil => intro t _ w h; simp [asofMatch] at h
  | append_singleton l x ih =>
      intro t hs w h r hr hle
      have hp : List.Pairwise (rowLe "start_time") (l ++ [x]) := hs
      have hstep : asofMatch (l ++ [x]) t =
          if rowTimeVal "start_time" x ≤ t then some x
          else asofMatch l t := by
        simp [asofMatch, List.foldl_append]
      rw [hstep] at h
      by_cases hc : rowTimeVal "start_time" x ≤ t
      · rw [if_pos hc] at h
        rw [← Option.some.inj h]
        rcases List.mem_append.mp hr with h1 | h2
        · exact (List.pairwise_append.mp hp).2.2 r h1 x (by simp)
        · have hx : r = x := by simpa using h2
          rw [hx]
      · rw [if_neg hc] at h
        rcases List.mem_append.mp hr with h1 | h2
        · exact ih t (List.pairwise_append.mp hp).1 w h r h1 hle
        · exfalso
          have hx : r = x := by simpa using h2
          rw [hx] at hle
          exact hc hle

theorem keepQ_iff (P : List ℚ) (sR : List Row)
    (hs : List.Sorted (rowLe "start_time") sR)
    (hmem : ∀ w, w ∈ sR ↔ ∃ ρ ∈ P, w = windowRow ρ) (t0 : ℚ) :
    keepQ sR t0 = true ↔ ∃ ρ ∈ P, ρ - 1 ≤ t0 ∧ t0 ≤ ρ + 1 := by
  constructor
  · intro hk
    cases hm : asofMatch sR t0 with
    | none => simp [keepQ, hm] at hk
    | some w =>
        obtain ⟨ρ, hρ, rfl⟩ := (hmem w).mp (asofMatch_mem sR t0 w hm)
        simp only [keepQ, hm, getCell_windowRow_start,
          getCell_windowRow_end] at hk
        simp only [decide_eq_true_eq] at hk
        exact ⟨ρ, hρ, hk.1, hk.2⟩
  · rintro ⟨ρ, hρ, hge, hle⟩
    have hwin : windowRow ρ ∈ sR := (hmem _).mpr ⟨ρ, hρ, rfl⟩
    have hstart : rowTimeVal "start_time" (windowRow ρ) ≤ t0 := by
      rw [rowTimeVal_windowRow]
      linarith
    obtain ⟨w, hm, hwle⟩ :=
      asofMatch_exists sR t0 ⟨windowRow ρ, hwin, hstart⟩
    have hmax := asofMatch_max sR t0 hs w hm (windowRow ρ) hwin hstart
    obtain ⟨ρ2, hρ2, rfl⟩ := (hmem w).mp (asofMatch_mem sR t0 w hm)
    rw [rowTimeVal_windowRow, rowTimeVal_windowRow] at hmax
    rw [rowTimeVal_windowRow] at hwle
    simp only [keepQ, hm, getCell_windowRow_start, getCell_windowRow_end]
    simp only [decide_eq_true_eq]
    constructor
    · linarith
    · linarith

theorem mem_dfTimes (df : DataFrame) (ts : ℚ) :
    ts ∈ dfTimes df ↔
      ∃ r ∈ df.rows, getCell r DataModel.time_column = some ts := by
  simp [dfTimes, List.mem_filterMap]

theorem projWindows_mem_iff (ref : DataFrame)
    (h2 : ∀ r ∈ ref.rows, (getCell r DataModel.time_column).isSome = true) :
    ∀ w, w ∈ projWindows (addWindowCols (parseRefStage ref)) ↔
      ∃ ρ ∈ dfTimes ref, w = windowRow ρ := by
  intro w
  constructor
  · intro hw
    simp only [projWindows, addWindowCols, parseRefStage, setColumn,
      List.map_map, List.mem_map, Function.comp] at hw
    obtain ⟨r0, hr0, hw⟩ := hw
    have hρ : ∃ ρ, getCell r0 DataModel.time_column = some ρ := by
      have hsome := h2 r0 hr0
      cases hcell : getCell r0 DataModel.time_column with
      | none => rw [hcell] at hsome; simp at hsome
      | some ρ => exact ⟨ρ, rfl⟩
    obtain ⟨ρ, hρ⟩ := hρ
    refine ⟨ρ, (mem_dfTimes ref ρ).mpr ⟨r0, hr0, hρ⟩, ?_⟩
    rw [← hw, windowRow]
    rw [getCellStartAfterSetEnd, getCell_setCell_self,
      getCell_setCell_self, getCellTimeAfterSetStart,
      getCell_setCell_self, hρ]
    simp [getCell_setCell_self]
  · rintro ⟨ρ, hρP, rfl⟩
    obtain ⟨r0, hr0, hcell⟩ := (mem_dfTimes ref ρ).mp hρP
    simp only [projWindows, addWindowCols, parseRefStage, setColumn,
      List.map_map, List.mem_map, Function.comp]
    refine ⟨r0, hr0, ?_⟩
    rw [windowRow]
    rw [getCellStartAfterSetEnd, getCell_setCell_self,
      getCell_setCell_self, getCellTimeAfterSetStart,
      getCell_setCell_self, hcell]
    simp [getCell_setCell_self]

theorem target_mem_iff (target : DataFrame) (ts : ℚ) :
    (∃ r ∈ sortRowsOn DataModel.time_column
        (dropnaStage (parseTargetStage target)).rows,
      getCell r DataModel.time_column = some ts) ↔
      ts ∈ dfTimes target := by
  rw [mem_dfTimes]
  constructor
  · rintro ⟨r, hr, hcell⟩
    rw [sortRowsOn, List.mem_insertionSort] at hr
    simp only [dropnaStage, parseTargetStage, setColumn, List.mem_filter,
      List.mem_map] at hr
    obtain ⟨⟨r0, hr0, rfl⟩, _⟩ := hr
    exact ⟨r0, hr0, by rwa [getCell_setCell_self] at hcell⟩
  · rintro ⟨r0, hr0, hcell⟩
    refine ⟨setCell r0 DataModel.time_column
      (getCell r0 DataModel.time_column), ?_, ?_⟩
    · rw [sortRowsOn, List.mem_insertionSort]
      simp only [dropnaStage, parseTargetStage, setColumn, List.mem_filter,
        List.mem_map]
      refine ⟨⟨r0, hr0, rfl⟩, ?_⟩
      rw [getCell_setCell_self, hcell]
      rfl
    · rw [getCell_setCell_self, hcell]

theorem getCell_mergeAsofRow_tc (sR : List Row) (r : Row) :
    getCell (mergeAsofRow sR r) DataModel.time_column =
      getCell r DataModel.time_column := by
  cases hm : asofMatch sR (rowTimeVal DataModel.time_column r) with
  | some w =>
      simp only [mergeAsofRow, hm]
      rw [getCellTimeAfterSetEnd, getCellTimeAfterSetStart]
  | none =>
      simp only [mergeAsofRow, hm]
      rw [getCellTimeAfterSetEnd, getCellTimeAfterSetStart]

theorem windowPred_mergeAsofRow (sR : List Row) (r0 : Row) (t0 : ℚ)
    (h : getCell r0 DataModel.time_column = some t0) :
    windowPred (mergeAsofRow sR r0) = keepQ sR t0 := by
  have hrtv : rowTimeVal DataModel.time_column r0 = t0 := by
    simp [rowTimeVal, h]
  cases hm : asofMatch sR t0 with
  | none =>
      simp only [mergeAsofRow, hrtv, hm, windowPred, keepQ]
      rw [getCellTimeAfterSetEnd, getCellTimeAfterSetStart, h,
        getCellStartAfterSetEnd, getCell_setCell_self, getCell_setCell_self]
  | some w =>
      simp only [mergeAsofRow, hrtv, hm, windowPred, keepQ]
      rw [getCellTimeAfterSetEnd, getCellTimeAfterSetStart, h,
        getCellStartAfterSetEnd, getCell_setCell_self, getCell_setCell_self]
      cases getCell w "start_time" <;> cases getCell w "end_time" <;> rfl

theorem mainAlign_times (ref target : DataFrame)
    (h2 : ∀ r ∈ ref.rows, (getCell r DataModel.time_column).isSome = true) :
    ∀ ts : ℚ, ts ∈ dfTimes (mainAlign (parseRefStage ref) target).2 ↔
      (ts ∈ dfTimes target ∧
        ∃ ρ ∈ dfTimes ref, ρ - 1 ≤ ts ∧ ts ≤ ρ + 1) := by
  intro ts
  have htc_ne_st : DataModel.time_column ≠ "start_time" := by decide
  have htc_ne_et : DataModel.time_column ≠ "end_time" := by decide
  have hsorted : List.Sorted (rowLe "start_time")
      (sortRowsOn "start_time"
        (projWindows (addWindowCols (parseRefStage ref)))) :=
    List.sorted_insertionSort _ _
  have hmemR : ∀ w, w ∈ sortRowsOn "start_time"
      (projWindows (addWindowCols (parseRefStage ref))) ↔
      ∃ ρ ∈ dfTimes ref, w = windowRow ρ := by
    intro w
    rw [sortRowsOn, List.mem_insertionSort]
    exact projWindows_mem_iff ref h2 w
  have hres : (mainAlign (parseRefStage ref) target).2.rows =
      ((((sortRowsOn DataModel.time_column
            (dropnaStage (parseTargetStage target)).rows).map
          (mergeAsofRow (sortRowsOn "start_time"
            (projWindows (addWindowCols (parseRefStage ref)))))).filter
          windowPred).map
        (fun r => dropCell r "start_time")).map
        (fun r => dropCell r "end_time") := rfl
  have hmemres : ∀ x : ℚ,
      (∃ r ∈ (mainAlign (parseRefStage ref) target).2.rows,
        getCell r DataModel.time_column = some x) ↔
      ∃ r0 ∈ sortRowsOn DataModel.time_column
          (dropnaStage (parseTargetStage target)).rows,
        getCell r0 DataModel.time_column = some x ∧
        windowPred (mergeAsofRow (sortRowsOn "start_time"
          (projWindows (addWindowCols (parseRefStage ref)))) r0) = true := by
    intro x
    constructor
    · rintro ⟨r, hr, hcell⟩
      rw [hres] at hr
      obtain ⟨r1, hr1, rfl⟩ := List.mem_map.mp hr
      obtain ⟨r2, hr2, rfl⟩ := List.mem_map.mp hr1
      obtain ⟨hr2m, hpred⟩ := List.mem_filter.mp hr2
      obtain ⟨r0, hr0, rfl⟩ := List.mem_map.mp hr2m
      refine ⟨r0, hr0, ?_, hpred⟩
      rwa [getCell_dropCell_ne _ htc_ne_et, getCell_dropCell_ne _ htc_ne_st,
        getCell_mergeAsofRow_tc] at hcell
    · rintro ⟨r0, hr0, hcell, hpred⟩
      refine ⟨dropCell (dropCell (mergeAsofRow (sortRowsOn "start_time"
        (projWindows (addWindowCols (parseRefStage ref)))) r0)
          "start_time") "end_time", ?_, ?_⟩
      · rw [hres]
        exact List.mem_map.mpr ⟨_, List.mem_map.mpr ⟨_,
          List.mem_filter.mpr ⟨List.mem_map.mpr ⟨r0, hr0, rfl⟩, hpred⟩,
          rfl⟩, rfl⟩
      · rw [getCell_dropCell_ne _ htc_ne_et,
          getCell_dropCell_ne _ htc_ne_st, getCell_mergeAsofRow_tc]
        exact hcell
  rw [mem_dfTimes, hmemres ts]
  constructor
  · rintro ⟨r0, hr0, hcell, hpred⟩
    rw [windowPred_mergeAsofRow _ r0 ts hcell] at hpred
    exact ⟨(target_mem_iff target ts).mp ⟨r0, hr0, hcell⟩,
      (keepQ_iff (dfTimes ref) _ hsorted hmemR ts).mp hpred⟩
  · rintro ⟨hts, hcov⟩
    obtain ⟨r0, hr0, hcell⟩ := (target_mem_iff target ts).mpr hts
    refine ⟨r0, hr0, hcell, ?_⟩
    rw [windowPred_mergeAsofRow _ r0 ts hcell]
    exact (keepQ_iff (dfTimes ref) _ hsorted hmemR ts).mpr hcov

/-- C2 amended: the alignment window half-width is fixed at one minute
regardless of the `time_window` argument (line 27 hardcodes `minutes = 1`).
For that fixed Δ = 1: a parsed candidate timestamp is kept iff it lies within
Δ of some reference timestamp — so a candidate at a reference time `t` is
kept, one at exactly `t + Δ` is kept (inclusive end boundary), and one at
`t + Δ + ε` (ε > 0) is dropped unless another reference window covers it. -/
theorem filter_dataframe_window_membership :
    ∀ (ref target : DataFrame) (tw : ℚ),
      DataModel.time_column ∈ ref.cols →
      ref.rows.all (fun r => (getCell r DataModel.time_column).isSome) = true →
      DataModel.time_column ∈ target.cols →
      ∃ ref3 res,
        filter_dataframe (some ref) target tw = Except.ok (ref3, res) ∧
        ∀ ts : ℚ, ts ∈ dfTimes res ↔
          (ts ∈ dfTimes target ∧
            ∃ ρ ∈ dfTimes ref, ρ - 1 ≤ ts ∧ ts ≤ ρ + 1) := by
  intro ref target tw h1 h2 h3
  refine ⟨(mainAlign (parseRefStage ref) target).1,
    (mainAlign (parseRefStage ref) target).2, ?_, ?_⟩
  · simp [filter_dataframe, h1, h2, h3]
  · exact mainAlign_times ref target
      (fun r hr => (List.all_eq_true.mp h2) r hr)

theorem filter_dataframe_window_membership_witness :
    ∃ ref3 res,
      filter_dataframe (some ⟨["Gmt time"], [[("Gmt time", some 0)]]⟩)
          ⟨["Gmt time"], [[("Gmt time", some 1)]]⟩ 1 =
        Except.ok (ref3, res) ∧
      ∀ ts : ℚ, ts ∈ dfTimes res ↔
        (ts ∈ dfTimes ⟨["Gmt time"], [[("Gmt time", some 1)]]⟩ ∧
          ∃ ρ ∈ dfTimes ⟨["Gmt time"], [[("Gmt time", some 0)]]⟩,
            ρ - 1 ≤ ts ∧ ts ≤ ρ + 1) :=
  filter_dataframe_window_membership
    ⟨["Gmt time"], [[("Gmt time", some 0)]]⟩
    ⟨["Gmt time"], [[("Gmt time", some 1)]]⟩ 1
    (by decide) (by decide) (by decide)

/-- C2 counterexample: the claim quantifies over the window half-width Δ, but
the code ignores the `time_window` parameter.  With `time_window = 2`, a
reference at `t = 0` and a candidate at exactly `t + Δ = 2`, the claim says
the candidate is kept; the code uses its hardcoded one-minute window and
drops it. -/
theorem filter_dataframe_ignores_time_window :
    resTimesOf (filter_dataframe
        (some ⟨["Gmt time"], [[("Gmt time", some 0)]]⟩)
        ⟨["Gmt time"], [[("Gmt time", some 2)]]⟩ 2) = [] ∧
    (2 : ℚ) ∈ dfTimes ⟨["Gmt time"], [[("Gmt time", some 2)]]⟩ ∧
    (0 : ℚ) ∈ dfTimes ⟨["Gmt time"], [[("Gmt time", some 0)]]⟩ := by
  refine ⟨?_, ?_, ?_⟩
  · have hok : filter_dataframe
        (some ⟨["Gmt time"], [[("Gmt time", some 0)]]⟩)
        ⟨["Gmt time"], [[("Gmt time", some 2)]]⟩ 2 =
        Except.ok
          ((mainAlign (parseRefStage
              ⟨["Gmt time"], [[("Gmt time", some 0)]]⟩)
            ⟨["Gmt time"], [[("Gmt time", some 2)]]⟩).1,
           (mainAlign (parseRefStage
              ⟨["Gmt time"], [[("Gmt time", some 0)]]⟩)
            ⟨["Gmt time"], [[("Gmt time", some 2)]]⟩).2) := by
      simp [filter_dataframe, getCell, DataModel.time_column]
    rw [hok]
    show dfTimes (mainAlign (parseRefStage
        ⟨["Gmt time"], [[("Gmt time", some 0)]]⟩)
      ⟨["Gmt time"], [[("Gmt time", some 2)]]⟩).2 = []
    rw [List.eq_nil_iff_forall_not_mem]
    intro ts hts
    have hiff := mainAlign_times ⟨["Gmt time"], [[("Gmt time", some 0)]]⟩
      ⟨["Gmt time"], [[("Gmt time", some 2)]]⟩
      (by
        intro r hr
        rw [List.mem_singleton] at hr
        subst hr
        rfl) ts
    rw [hiff] at hts
    obtain ⟨hmemT, ρ, hρ, hlo, hhi⟩ := hts
    have ht2 : ts = 2 := by
      have hT : dfTimes (DataFrame.mk ["Gmt time"] [[("Gmt time", some 2)]]) =
          [2] := rfl
      rw [hT, List.mem_singleton] at hmemT
      exact hmemT
    have hρ0 : ρ = 0 := by
      have hR : dfTimes (DataFrame.mk ["Gmt time"] [[("Gmt time", some 0)]]) =
          [0] := rfl
      rw [hR, List.mem_singleton] at hρ
      exact hρ
    rw [ht2, hρ0] at hhi
    norm_num at hhi
  · show (2 : ℚ) ∈ [(2 : ℚ)]
    exact List.mem_singleton_self _
  · show (0 : ℚ) ∈ [(0 : ℚ)]
    exact List.mem_singleton_self _
